import Mathlib

/-!
Verification model of the R-GCN notebook
(src/DGL_Relational_Graph_Convolutional_Network.ipynb).

Tensors are modelled as total functions from natural-number indices to ℚ,
with shapes carried separately; `view`/reshape operations are modelled by
explicit flat-index arithmetic over the contiguous row-major buffer, which
is exactly what `torch.Tensor.view` does.  Dataframe columns are modelled
as lists of strings, graphs as lists of edges.
-/

/-- One element of the contiguous row-major buffer of a rank-3 tensor of
shape `(d1, d2, d3)` read back at coordinates `(i, j, k)`: this is
`torch.Tensor.view (d1, d2, d3)` applied to a flat buffer. -/
def view3 (d2 d3 : ℕ) (flat : ℕ → ℚ) : ℕ → ℕ → ℕ → ℚ :=
  fun i j k => flat ((i * d2 + j) * d3 + k)

/-- Row-major flattening of a rank-3 tensor of shape `(d1, d2, d3)`:
the inverse of `view3`, i.e. the contiguous buffer underlying the tensor. -/
def flat3 (d2 d3 : ℕ) (t : ℕ → ℕ → ℕ → ℚ) : ℕ → ℚ :=
  fun p => t (p / (d2 * d3)) (p / d3 % d2) (p % d3)

/-- The per-relation weight tensor computed at the start of
`RGCNLayer.forward` (cell-3).  `weight` is the stored parameter of shape
`(num_bases, in_feat, out_feat)` and `w_comp` the coefficient matrix of
shape `(num_rels, num_bases)`.  When `num_bases < num_rels` the code runs

  `weight = self.weight.view(self.in_feat, self.num_bases, self.out_feat)`
  `weight = torch.matmul(self.w_comp, weight).view(self.num_rels,
                                          self.in_feat, self.out_feat)`

i.e. a reinterpreting reshape of the buffer to `(in_feat, num_bases,
out_feat)`, a broadcast matrix product giving shape `(in_feat, num_rels,
out_feat)`, and a final reshape to `(num_rels, in_feat, out_feat)`;
otherwise the stored weight is used directly. -/
def forward_weight (in_feat out_feat num_rels num_bases : ℕ)
    (weight : ℕ → ℕ → ℕ → ℚ) (w_comp : ℕ → ℕ → ℚ) : ℕ → ℕ → ℕ → ℚ :=
  if num_bases < num_rels then
    let v := view3 num_bases out_feat (flat3 in_feat out_feat weight)
    let m : ℕ → ℕ → ℕ → ℚ :=
      fun i r o => ∑ b ∈ Finset.range num_bases, w_comp r b * v i b o
    view3 in_feat out_feat (flat3 num_rels out_feat m)
  else weight

/-- The basis reconstruction as stated by the spec (equation (3) of the
R-GCN paper, also cited by the code comment in cell-3): the effective
weight of relation `r` is the linear combination of the stored basis
matrices weighted by the coefficient row of `r`. -/
def basis_reconstruction_spec (num_bases : ℕ)
    (weight : ℕ → ℕ → ℕ → ℚ) (w_comp : ℕ → ℕ → ℚ) : ℕ → ℕ → ℕ → ℚ :=
  fun r i o => ∑ b ∈ Finset.range num_bases, w_comp r b * weight b i o

/-- A concrete stored basis parameter of shape `(1, 2, 1)`:
basis 0 is the column matrix `[[1], [2]]`. -/
def wEx : ℕ → ℕ → ℕ → ℚ := fun _ i _ => if i = 0 then 1 else 2

/-- A concrete coefficient matrix of shape `(2, 1)`: relation 0 has
coefficient 0, relation 1 has coefficient 1. -/
def cEx : ℕ → ℕ → ℚ := fun r _ => if r = 0 then 0 else 1

/-- One edge of the graph as consumed by `RGCNLayer.forward`: source node
id, destination node id, relation id (`edata.rel_type`) and the
normalization scalar (`edata.norm`). -/
structure Edge where
  src : ℕ
  dst : ℕ
  rel : ℕ
  norm : ℚ
deriving DecidableEq

/-- `message_func` of the input layer (cell-3): the forward-pass weight is
viewed as a 2-D embedding table `weight.view(-1, out_feat)` of row length
`out_feat`, indexed at row `rel_type * in_feat + src_id`, and the row is
scaled by the edge norm.  The source node's `id` feature equals its node
index (`Model.forward` sets `g.ndata.id = torch.arange(num_nodes)`). -/
def message_func_input (in_feat : ℕ) (W : ℕ → ℕ → ℕ → ℚ) (e : Edge)
    (o : ℕ) : ℚ :=
  let embed : ℕ → ℕ → ℚ := fun p oo => W (p / in_feat) (p % in_feat) oo
  embed (e.rel * in_feat + e.src) o * e.norm

/-- `message_func` of the non-input layers (cell-3): the source node's
feature row `h` is multiplied by the relation's weight matrix
(`torch.bmm(edges.src.h.unsqueeze(1), w).squeeze()`) and scaled by the
edge norm. -/
def message_func_hidden (in_feat : ℕ) (W : ℕ → ℕ → ℕ → ℚ)
    (h : ℕ → ℕ → ℚ) (e : Edge) (o : ℕ) : ℚ :=
  (∑ i ∈ Finset.range in_feat, h e.src i * W e.rel i o) * e.norm

/-- One-hot feature row of node `v`: 1 at coordinate `v`, 0 elsewhere. -/
def one_hot (v : ℕ) : ℕ → ℚ := fun i => if i = v then 1 else 0

/-- The reducer `fn.sum(msg, out=h)` used by `g.update_all` (cell-3):
for node `v`, sum the messages of all edges whose destination is `v`;
a node with no incoming edges gets 0. -/
def sum_by_dst (msg : Edge → ℕ → ℚ) (edges : List Edge) (v o : ℕ) : ℚ :=
  ((edges.filter (fun e => e.dst == v)).map (fun e => msg e o)).sum

/-- The `num_bases` sanity check of `RGCNLayer.__init__` (cell-3):
`if self.num_bases <= 0 or self.num_bases > self.num_rels:
   self.num_bases = self.num_rels`. -/
def clampBases (num_rels num_bases : ℤ) : ℤ :=
  if num_bases ≤ 0 ∨ num_bases > num_rels then num_rels else num_bases

/-- The state of a successfully constructed `RGCNLayer`:
its dimension fields, whether a coefficient matrix `w_comp` was
allocated, and whether a bias parameter was requested. -/
structure RGCNLayer where
  in_feat : ℤ
  out_feat : ℤ
  num_rels : ℤ
  num_bases : ℤ
  hasWComp : Bool
  hasBias : Bool
deriving DecidableEq

/-- `RGCNLayer.__init__` (cell-3), modelled as the sequence of host-level
effects it performs, in source order, with the first raised exception
reported as an error:
1. `num_bases` clamp (`clampBases`);
2. weight allocation `torch.Tensor(num_bases, in_feat, out_feat)` —
   raises on a negative size;
3. if `num_bases < num_rels`, allocation of
   `torch.Tensor(num_rels, num_bases)` — raises on a negative size
   (subsumed by step 2, which already rejects negative `num_bases`);
4. if the `bias` argument is truthy, `self.bias` is reassigned to a
   parameter `torch.Tensor(out_feat)` — raises on a negative size;
5. `nn.init.xavier_uniform_(self.weight)`: for a rank-3 tensor of shape
   `(d0, d1, d2)` the fan computation gives `fan_in = d1*d2`,
   `fan_out = d0*d2`, and `std = gain * sqrt(2.0 / (fan_in + fan_out))`
   raises ZeroDivisionError when `fan_in + fan_out = 0`;
6. same for `w_comp` of shape `(num_rels, num_bases)` when allocated,
   where `fan_in + fan_out = num_bases + num_rels`;
7. `if self.bias:` — at this point `self.bias` is the tensor allocated in
   step 4, and Python truth-testing a tensor raises unless it has exactly
   one element; with one element the truth value is that of the
   uninitialized datum, modelled by the oracle `biasDataTruthy`, and a
   truthy value reaches `nn.init.xavier_uniform_(self.bias)`, which
   raises because fan-in/fan-out are not defined for rank-1 tensors. -/
def RGCNLayer.construct (in_feat out_feat num_rels num_bases : ℤ)
    (bias biasDataTruthy : Bool) : Except String RGCNLayer :=
  let nb := clampBases num_rels num_bases
  if nb < 0 ∨ in_feat < 0 ∨ out_feat < 0 then
    .error "RuntimeError: Trying to create tensor with negative dimension"
  else if nb < num_rels ∧ (num_rels < 0 ∨ nb < 0) then
    .error "RuntimeError: Trying to create tensor with negative dimension"
  else if bias ∧ out_feat < 0 then
    .error "RuntimeError: Trying to create tensor with negative dimension"
  else if in_feat * out_feat + nb * out_feat = 0 then
    .error "ZeroDivisionError: float division by zero"
  else if nb < num_rels ∧ nb + num_rels = 0 then
    .error "ZeroDivisionError: float division by zero"
  else if bias ∧ out_feat ≠ 1 then
    .error "RuntimeError: Boolean value of Tensor with more than one element is ambiguous"
  else if bias ∧ biasDataTruthy then
    .error "ValueError: Fan in and fan out can not be computed for tensor with fewer than 2 dimensions"
  else
    .ok { in_feat := in_feat, out_feat := out_feat, num_rels := num_rels,
          num_bases := nb, hasWComp := decide (nb < num_rels),
          hasBias := bias }

/-- Lexicographic order on lists of characters, by code point — the order
`numpy`/`pandas` use to sort ASCII string categories. -/
def charListLe : List Char → List Char → Bool
  | [], _ => true
  | _ :: _, [] => false
  | c :: cs, d :: ds =>
    if c.val < d.val then true
    else if d.val < c.val then false
    else charListLe cs ds

/-- Lexicographic order on strings, by code point. -/
def strLe (a b : String) : Bool := charListLe a.data b.data

/-- Insert a string into a `strLe`-sorted list, keeping it sorted. -/
def insertSorted (s : String) : List String → List String
  | [] => [s]
  | t :: ts => if strLe s t then s :: t :: ts else t :: insertSorted s ts

/-- Insertion sort of a list of strings under `strLe`. -/
def sortStrings : List String → List String
  | [] => []
  | s :: ss => insertSorted s (sortStrings ss)

/-- Remove duplicates from a list, keeping the first occurrence of each
element. -/
def dedupFirstAux {α : Type} [DecidableEq α] (seen : List α) :
    List α → List α
  | [] => []
  | x :: xs =>
    if x ∈ seen then dedupFirstAux seen xs
    else x :: dedupFirstAux (x :: seen) xs

/-- Remove duplicates from a list, keeping first occurrences. -/
def dedupFirst {α : Type} [DecidableEq α] (l : List α) : List α :=
  dedupFirstAux [] l

/-- The categories of a pandas column under `astype('category')`:
the distinct values of the column, sorted lexicographically (pandas sorts
string categories; it does not keep first-appearance order). -/
def categories (col : List String) : List String :=
  sortStrings (dedupFirst col)

/-- `cat.codes` of a single value: its index in the sorted category
list. -/
def cat_code (col : List String) (s : String) : ℕ :=
  (categories col).indexOf s

/-- `column.astype('category').cat.codes` (cells 10 and 17): each entry
replaced by the index of its value in the sorted category list. -/
def cat_codes (col : List String) : List ℕ := col.map (cat_code col)

/-- One row of the `bios_graph_data` dataframe: source label `agent_A`,
destination label `agent_B`, relation label `stmt_type`. -/
structure Triple where
  agent_A : String
  agent_B : String
  stmt_type : String
deriving DecidableEq

/-- `edge_src` (cell-17): the `agent_A` column encoded by its own
categorical code mapping. -/
def edge_src (rows : List Triple) : List ℕ :=
  cat_codes (rows.map (fun t => t.agent_A))

/-- `edge_dst` (cell-17): the `agent_B` column encoded by its own,
separate, categorical code mapping. -/
def edge_dst (rows : List Triple) : List ℕ :=
  cat_codes (rows.map (fun t => t.agent_B))

/-- `relation_category` (cell-10): the `stmt_type` column encoded by its
categorical code mapping. -/
def relation_category (rows : List Triple) : List ℕ :=
  cat_codes (rows.map (fun t => t.stmt_type))

/-- The edge set of the directed graph built by
`nx.from_pandas_edgelist(..., create_using=nx.DiGraph())` (cell-13):
one `(agent_A, agent_B)` pair per row, duplicates collapsed. -/
def nx_edges (rows : List Triple) : List (String × String) :=
  dedupFirst (rows.map (fun t => (t.agent_A, t.agent_B)))

/-- The node list of that directed graph: every endpoint label, in
insertion order, duplicates collapsed. -/
def nx_nodes (rows : List Triple) : List String :=
  dedupFirst (rows.foldr (fun t acc => t.agent_A :: t.agent_B :: acc) [])

/-- Total degree of node `v` in the directed graph: out-degree plus
in-degree over the collapsed edge set (`networkx` `DiGraph.degree`). -/
def nx_degree (rows : List Triple) (v : String) : ℕ :=
  ((nx_edges rows).filter (fun e => e.1 == v)).length +
    ((nx_edges rows).filter (fun e => e.2 == v)).length

/-- `nx.degree_centrality` (cell-13): for a graph with more than one node,
`degree(v) * (1 / (number_of_nodes - 1))`; a graph with at most one node
gets centrality 1 for every node. -/
def degree_centrality (rows : List Triple) (v : String) : ℚ :=
  if (nx_nodes rows).length ≤ 1 then 1
  else (nx_degree rows v : ℚ) * (1 / (((nx_nodes rows).length : ℚ) - 1))

/-- The radicand of the `edge_norm` column (cell-14):
`edge_norm = np.sqrt(centrality(agent_A) * centrality(agent_B))`, so this
is the square of the norm of an edge from `a` to `b`. -/
def edge_norm_sq (rows : List Triple) (a b : String) : ℚ :=
  degree_centrality rows a * degree_centrality rows b

/-- The three-node example graph of the spec: edges A to B, B to A,
B to C, all with the same relation label. -/
def exampleABC : List Triple :=
  [⟨"A", "B", "r"⟩, ⟨"B", "A", "r"⟩, ⟨"B", "C", "r"⟩]

/-- Triples whose relation label column reads
Complex, Activation, Complex. -/
def exampleRel : List Triple :=
  [⟨"s1", "o1", "Complex"⟩, ⟨"s2", "o2", "Activation"⟩,
   ⟨"s3", "o3", "Complex"⟩]

/-- Triples where the label Y occurs once in subject position and once in
object position. -/
def exampleXYZ : List Triple := [⟨"X", "Y", "r"⟩, ⟨"Y", "Z", "r"⟩]

/-- Aggregation by destination is invariant under permutation of the edge
list, for any message function: filtering, mapping and summing are all
permutation-stable. -/
theorem sum_by_dst_perm (msg : Edge → ℕ → ℚ) {edges1 edges2 : List Edge}
    (hp : edges1.Perm edges2) (v o : ℕ) :
    sum_by_dst msg edges1 v o = sum_by_dst msg edges2 v o :=
  List.Perm.sum_eq (List.Perm.map _ (List.Perm.filter _ hp))

/-- Claim C1: refuted at a concrete input.  With num_bases 1, in_feat 2,
out_feat 1, num_rels 2, basis matrix [[1], [2]] and coefficients
[[0], [1]], the weight the forward pass uses for relation 0 at entry
(1, 0) is 1, while the linear combination of the stored bases weighted by
relation 0's coefficient row (coefficient 0) is 0: the view-based
reconstruction does not compute the documented basis combination. -/
theorem basis_view_scrambles_reconstruction :
    forward_weight 2 1 2 1 wEx cEx 0 1 0 = 1 ∧
    basis_reconstruction_spec 1 wEx cEx 0 1 0 = 0 := by
  constructor
  · norm_num [forward_weight, view3, flat3, wEx, cEx, Finset.sum_range_succ]
  · norm_num [basis_reconstruction_spec, wEx, cEx, Finset.sum_range_succ]

/-- Claim C2: for an input-mode layer, the embedding-lookup message (row
rel * in_feat + src of the weight viewed as a (num_rels * in_feat) by
out_feat table, scaled by the edge norm) equals the message obtained by
multiplying the one-hot feature row of the source by the relation's
weight matrix and scaling by the edge norm, whenever the source id lies
in [0, in_feat) and the relation id in [0, num_rels). -/
theorem input_layer_lookup_eq_one_hot_matmul
    (in_feat num_rels : ℕ) (W : ℕ → ℕ → ℕ → ℚ) (e : Edge) (o : ℕ)
    (hsrc : e.src < in_feat) (hrel : e.rel < num_rels) :
    message_func_input in_feat W e o
      = message_func_hidden in_feat W (fun v => one_hot v) e o := by
  have hI : 0 < in_feat := Nat.lt_of_le_of_lt (Nat.zero_le _) hsrc
  have h1 : (e.rel * in_feat + e.src) / in_feat = e.rel := by
    rw [mul_comm e.rel in_feat, Nat.mul_add_div hI, Nat.div_eq_of_lt hsrc,
      Nat.add_zero]
  have h2 : (e.rel * in_feat + e.src) % in_feat = e.src := by
    rw [mul_comm e.rel in_feat, Nat.mul_add_mod, Nat.mod_eq_of_lt hsrc]
  have h3 : (∑ i ∈ Finset.range in_feat, one_hot e.src i * W e.rel i o)
      = W e.rel e.src o := by
    simp only [one_hot, ite_mul, one_mul, zero_mul]
    rw [Finset.sum_ite_eq' (Finset.range in_feat) e.src
      (fun i => W e.rel i o)]
    exact if_pos (Finset.mem_range.mpr hsrc)
  simp only [message_func_input, message_func_hidden, h1, h2, h3]

/-- Witness for claim C2 at a concrete edge: source 1, relation 1,
in_feat 2, num_rels 2. -/
theorem input_layer_lookup_eq_one_hot_matmul_witness :
    ((⟨1, 0, 1, 1⟩ : Edge).src < 2 ∧ (⟨1, 0, 1, 1⟩ : Edge).rel < 2) ∧
    message_func_input 2 wEx ⟨1, 0, 1, 1⟩ 0
      = message_func_hidden 2 wEx (fun v => one_hot v) ⟨1, 0, 1, 1⟩ 0 :=
  ⟨⟨by decide, by decide⟩,
    input_layer_lookup_eq_one_hot_matmul 2 2 wEx ⟨1, 0, 1, 1⟩ 0
      (by decide) (by decide)⟩

/-- Claim C3: permuting the edge list changes no node's aggregated
message, for the input-mode message function and for the hidden-mode
message function alike. -/
theorem aggregation_perm_invariant
    (in_feat : ℕ) (W : ℕ → ℕ → ℕ → ℚ) (hfeat : ℕ → ℕ → ℚ)
    (edges1 edges2 : List Edge) (hp : edges1.Perm edges2) (v o : ℕ) :
    sum_by_dst (message_func_input in_feat W) edges1 v o
      = sum_by_dst (message_func_input in_feat W) edges2 v o ∧
    sum_by_dst (message_func_hidden in_feat W hfeat) edges1 v o
      = sum_by_dst (message_func_hidden in_feat W hfeat) edges2 v o :=
  ⟨sum_by_dst_perm _ hp v o, sum_by_dst_perm _ hp v o⟩

/-- Witness for claim C3 on a two-edge list and its transposition. -/
theorem aggregation_perm_invariant_witness :
    (([⟨0, 1, 0, 1⟩, ⟨2, 1, 1, 2⟩] : List Edge).Perm
        [⟨2, 1, 1, 2⟩, ⟨0, 1, 0, 1⟩]) ∧
    (sum_by_dst (message_func_input 3 wEx)
          [⟨0, 1, 0, 1⟩, ⟨2, 1, 1, 2⟩] 1 0
        = sum_by_dst (message_func_input 3 wEx)
          [⟨2, 1, 1, 2⟩, ⟨0, 1, 0, 1⟩] 1 0 ∧
      sum_by_dst (message_func_hidden 3 wEx one_hot)
          [⟨0, 1, 0, 1⟩, ⟨2, 1, 1, 2⟩] 1 0
        = sum_by_dst (message_func_hidden 3 wEx one_hot)
          [⟨2, 1, 1, 2⟩, ⟨0, 1, 0, 1⟩] 1 0) :=
  ⟨List.Perm.swap _ _ _,
    aggregation_perm_invariant 3 wEx one_hot _ _ (List.Perm.swap _ _ _) 1 0⟩

/-- Claim C4: refuted.  On the relation label column
Complex, Activation, Complex the encoder assigns id 1 to Complex and id 0
to Activation — the codes follow alphabetical category order, not
first-appearance order. -/
theorem relation_codes_not_first_appearance :
    cat_code (exampleRel.map (fun t => t.stmt_type)) "Complex" = 1 ∧
    cat_code (exampleRel.map (fun t => t.stmt_type)) "Activation" = 0 :=
  ⟨rfl, rfl⟩

/-- Claim C4 as amended: relation ids follow the alphabetical order of
the distinct labels; the example column Complex, Activation, Complex is
encoded as codes 1, 0, 1 over the sorted category list
Activation, Complex. -/
theorem relation_codes_alphabetical :
    relation_category exampleRel = [1, 0, 1] ∧
    categories (exampleRel.map (fun t => t.stmt_type))
      = ["Activation", "Complex"] :=
  ⟨rfl, rfl⟩

/-- Claim C5: refuted.  With triples (X, Y) and (Y, Z), the label Y is
assigned id 1 by the subject-column encoder but id 0 by the
object-column encoder: no single label-to-id mapping is shared by the
two endpoint positions. -/
theorem node_codes_split_mapping :
    cat_code (exampleXYZ.map (fun t => t.agent_A)) "Y" = 1 ∧
    cat_code (exampleXYZ.map (fun t => t.agent_B)) "Y" = 0 :=
  ⟨rfl, rfl⟩

/-- Claim C5 as amended: the subject and object columns are encoded by
two independent categorical mappings, each alphabetical over its own
column's distinct labels, so the emitted src ids and dst ids live in
unrelated id spaces. -/
theorem node_codes_per_column :
    edge_src exampleXYZ = [0, 1] ∧ edge_dst exampleXYZ = [0, 1] ∧
    categories (exampleXYZ.map (fun t => t.agent_A)) = ["X", "Y"] ∧
    categories (exampleXYZ.map (fun t => t.agent_B)) = ["Y", "Z"] :=
  ⟨rfl, rfl, rfl, rfl⟩

/-- Claim C6: refuted.  On the graph with edges A to B, B to A, B to C,
the centrality the code computes for A is 1 (not 1/2) and the squared
norm of the edge from B to C is 3/4 (not 0): networkx degree centrality
counts in-degree plus out-degree, not out-degree alone. -/
theorem centrality_example_not_out_degree :
    degree_centrality exampleABC "A" = 1 ∧
    edge_norm_sq exampleABC "B" "C" = 3 / 4 := by
  have hA : nx_degree exampleABC "A" = 2 := rfl
  have hB : nx_degree exampleABC "B" = 3 := rfl
  have hC : nx_degree exampleABC "C" = 1 := rfl
  have hn : (nx_nodes exampleABC).length = 3 := rfl
  constructor
  · rw [degree_centrality, hA, hn]; norm_num
  · rw [edge_norm_sq, degree_centrality, degree_centrality, hB, hC, hn]
    norm_num

/-- Claim C6 as amended: with total-degree centrality over N - 1 = 2,
centrality(A) = 1, centrality(B) = 3/2, centrality(C) = 1/2, and the
squared edge norms sqrt-radicands are 3/2 for A-B and B-A and 3/4 for
B-C, per norm = sqrt(centrality(src) * centrality(dst)). -/
theorem centrality_example_values :
    degree_centrality exampleABC "A" = 1 ∧
    degree_centrality exampleABC "B" = 3 / 2 ∧
    degree_centrality exampleABC "C" = 1 / 2 ∧
    edge_norm_sq exampleABC "A" "B" = 3 / 2 ∧
    edge_norm_sq exampleABC "B" "A" = 3 / 2 ∧
    edge_norm_sq exampleABC "B" "C" = 3 / 4 := by
  have hA : nx_degree exampleABC "A" = 2 := rfl
  have hB : nx_degree exampleABC "B" = 3 := rfl
  have hC : nx_degree exampleABC "C" = 1 := rfl
  have hn : (nx_nodes exampleABC).length = 3 := rfl
  refine ⟨?_, ?_, ?_, ?_, ?_, ?_⟩ <;>
    simp only [edge_norm_sq, degree_centrality, hA, hB, hC, hn] <;> norm_num

/-- Claim C7: refuted.  Constructing a layer with num_rels = 0 (and
default num_bases, no bias) succeeds: the constructor performs no
dimension validation, so this configuration is not rejected before a
forward pass. -/
theorem construct_num_rels_zero_succeeds :
    RGCNLayer.construct 4 3 0 (-1) false false
      = Except.ok ⟨4, 3, 0, 0, false, false⟩ := rfl

/-- Claim C7 as amended: the constructor has no dimension check.
num_rels = 0 and in_feat = 0 construct successfully; out_feat = 0 fails
only incidentally, with a division by zero inside the fan-based weight
scheme, and a negative dimension fails only at tensor allocation. -/
theorem construct_no_dimension_validation :
    RGCNLayer.construct 4 3 0 (-1) false false
      = Except.ok ⟨4, 3, 0, 0, false, false⟩ ∧
    RGCNLayer.construct 0 3 5 (-1) false false
      = Except.ok ⟨0, 3, 5, 5, false, false⟩ ∧
    RGCNLayer.construct 4 0 5 (-1) false false
      = Except.error "ZeroDivisionError: float division by zero" ∧
    RGCNLayer.construct (-2) 3 5 (-1) false false
      = Except.error "RuntimeError: Trying to create tensor with negative dimension" :=
  ⟨rfl, rfl, rfl, rfl⟩

/-- Claim C8: after a successful construction with positive num_rels, the
stored num_bases lies in (0, num_rels], and whenever the configured value
was out of range it was clamped to exactly num_rels, in which case no
coefficient matrix was allocated (the weight parameter then holds one
full matrix per relation). -/
theorem num_bases_clamped_invariant
    (i o R nb : ℤ) (b g : Bool) (st : RGCNLayer) (hR : 0 < R)
    (h : RGCNLayer.construct i o R nb b g = Except.ok st) :
    (0 < st.num_bases ∧ st.num_bases ≤ R) ∧
    ((nb ≤ 0 ∨ R < nb) → st.num_bases = R ∧ st.hasWComp = false) := by
  simp only [RGCNLayer.construct] at h
  split_ifs at h
  rw [Except.ok.injEq] at h
  subst h
  show (0 < clampBases R nb ∧ clampBases R nb ≤ R) ∧
    ((nb ≤ 0 ∨ R < nb) →
      clampBases R nb = R ∧ decide (clampBases R nb < R) = false)
  by_cases hc : nb ≤ 0 ∨ nb > R
  · have hval : clampBases R nb = R := by unfold clampBases; rw [if_pos hc]
    rw [hval]
    exact ⟨⟨hR, le_refl R⟩, fun _ => ⟨rfl, by simp⟩⟩
  · have hval : clampBases R nb = nb := by unfold clampBases; rw [if_neg hc]
    rw [hval]
    constructor
    · omega
    · intro hcon; exact absurd hcon hc

/-- Witness for claim C8: construction with num_rels 5 and configured
num_bases -1, which is clamped to 5 with no coefficient matrix. -/
theorem num_bases_clamped_invariant_witness :
    (0 < (5 : ℤ) ∧
      RGCNLayer.construct 3 2 5 (-1) false false
        = Except.ok ⟨3, 2, 5, 5, false, false⟩) ∧
    ((0 < (⟨3, 2, 5, 5, false, false⟩ : RGCNLayer).num_bases ∧
        (⟨3, 2, 5, 5, false, false⟩ : RGCNLayer).num_bases ≤ 5) ∧
      (((-1 : ℤ) ≤ 0 ∨ (5 : ℤ) < -1) →
        (⟨3, 2, 5, 5, false, false⟩ : RGCNLayer).num_bases = 5 ∧
          (⟨3, 2, 5, 5, false, false⟩ : RGCNLayer).hasWComp = false)) :=
  ⟨⟨by norm_num, rfl⟩,
    num_bases_clamped_invariant 3 2 5 (-1) false false
      ⟨3, 2, 5, 5, false, false⟩ (by norm_num) rfl⟩

/-- Claim C9: refuted.  Constructing a layer with in_feat 2, out_feat 2,
num_rels 1 and a truthy bias argument raises at construction: after the
bias flag is overwritten with the freshly allocated bias tensor, the
constructor truth-tests that multi-element tensor, which is a Python
error, so no bias-configured layer with out_feat larger than 1 can be
constructed at all, let alone run its forward pass. -/
theorem bias_construction_raises (g : Bool) :
    RGCNLayer.construct 2 2 1 (-1) true g
      = Except.error "RuntimeError: Boolean value of Tensor with more than one element is ambiguous" := by
  cases g <;> rfl

/-- Claim C10: the edge norm is symmetric in the edge's endpoints — the
sqrt radicand centrality(a) * centrality(b) is commutative, hence so is
the norm itself. -/
theorem edge_norm_symmetric (rows : List Triple) (a b : String)
    (ha : a ∈ nx_nodes rows) (hb : b ∈ nx_nodes rows) :
    edge_norm_sq rows a b = edge_norm_sq rows b a ∧
    Real.sqrt (edge_norm_sq rows a b) = Real.sqrt (edge_norm_sq rows b a) := by
  have h : edge_norm_sq rows a b = edge_norm_sq rows b a :=
    mul_comm (degree_centrality rows a) (degree_centrality rows b)
  exact ⟨h, by rw [h]⟩

/-- Witness for claim C10 on the A, B, C example graph. -/
theorem edge_norm_symmetric_witness :
    ("A" ∈ nx_nodes exampleABC ∧ "B" ∈ nx_nodes exampleABC) ∧
    (edge_norm_sq exampleABC "A" "B" = edge_norm_sq exampleABC "B" "A" ∧
      Real.sqrt (edge_norm_sq exampleABC "A" "B")
        = Real.sqrt (edge_norm_sq exampleABC "B" "A")) :=
  ⟨⟨by decide, by decide⟩,
    edge_norm_symmetric exampleABC "A" "B" (by decide) (by decide)⟩
